import Mathlib

/-!
The `psf::SoundFile` wrapper of portsf++.

A shallow embedding of `src/src/portsf.cpp` and `src/include/portsf.hpp`.

* The C library behind the wrapper (`portsf.h`) is not among the sources.  Everything the
  wrapper takes from it (constants and functions) is a field of the parameter `Portsf σ`,
  where `σ` is the state the library and the C heap act on (files, positions, buffers).
* A `PSFFILE*` (and a sample buffer pointer) is an address, a `Nat`; `nullptr` is `0`.
* A C `int` is an `Int`: the wrapper does no arithmetic on them.
* Every call the wrapper makes (library call, `free`, `delete impl`, `std::cout` output,
  `markAsInvalid()`) is appended to `World.trace`, in program order.
* Member functions take the object and the world and return the new object and world
  (and the returned value); `const` accessors that touch nothing are pure functions.
-/

namespace psf

/-- The `enum class HandleType` of portsf.hpp. -/
inductive HandleType
  | READ
  | WRITE
  | INVALID
deriving DecidableEq, Repr

/-- The `enum class HeaderFormat` of portsf.hpp. -/
inductive HeaderFormat
  | WAV
  | AIFF
deriving DecidableEq, Repr

/-- The `enum class SampleFormat` of portsf.hpp. -/
inductive SampleFormat
  | INT16
  | INT24
  | FLOAT32
deriving DecidableEq, Repr

/-- The `enum class SeekMode` of portsf.hpp. -/
inductive SeekMode
  | SET
  | CUR
  | END
deriving DecidableEq, Repr

/-- The cast `(int)m_handleType` used by `dump`: READ = 0, WRITE = 1, INVALID = 2. -/
def HandleType.toInt : HandleType → Int
  | .READ => 0
  | .WRITE => 1
  | .INVALID => 2

/-- The null pointer. -/
def nullptr : Nat := 0

/-- Modelled from the spec: the record `psf_props` is declared in portsf.h, which is not among
the sources.  Its fields are the five the wrapper assigns in portsf.cpp lines 51-67, which are
also the five of the spec (section 6): sample rate, channel count, sample-encoding tag,
container-format tag, channel-layout tag.  The tags are C enumerators, kept as integers. -/
structure psf_props where
  srate : Int
  chans : Int
  samptype : Int
  format : Int
  chformat : Int
deriving DecidableEq, Repr

/-- The `struct SoundFile::portsf_impl` of portsf.cpp lines 28-32. -/
structure portsf_impl where
  file : Nat
  props : psf_props
deriving DecidableEq, Repr

/-- The data members of `class SoundFile`.  `impl` is held by value: the record the pointer
`impl` points to.  `delete impl` leaves these contents in place and is recorded in the trace;
from then on `isClosed` is true. -/
structure SoundFile where
  impl : portsf_impl
  m_handleType : HandleType
  isClosed : Bool
deriving DecidableEq, Repr

/-- One call made by the wrapper, with the arguments it passes. -/
inductive Call
  | psf_sndOpen (path : String) (rescale : Int)
  | psf_sndCreate (path : String) (props : psf_props) (clip_floats minheader mode : Int)
  | psf_sndReadFloatFrames (file whereBuf : Nat) (numFrames : Int)
  | psf_sndReadDoubleFrames (file whereBuf : Nat) (numFrames : Int)
  | psf_sndWriteFloatFrames (file what : Nat) (numFrames : Int)
  | psf_sndWriteDoubleFrames (file what : Nat) (numFrames : Int)
  | psf_sndClose (file : Nat)
  | psf_sndSize (file : Nat)
  | psf_sndSeek (file : Nat) (frameOffset mode : Int)
  | free (file : Nat)
  | delete_impl
  | cout (text : String)
  | markAsInvalid
deriving DecidableEq, Repr

/-- Whether the call is one into the portsf library. -/
def Call.isBackend : Call → Bool
  | .free _ => false
  | .delete_impl => false
  | .cout _ => false
  | .markAsInvalid => false
  | _ => true

/-- Modelled from the spec: what the wrapper uses of portsf.h and of the C heap, none of which
is among the sources.  The constants are the enumerators and macros portsf.cpp names.  Each
function takes the arguments of the C call and the state `σ` and returns the C result, what
it left in the locations passed by address, and the new state:
`psf_sndOpen path props rescale file` is handed the previous contents of `*props` and `*file`
and returns the error code and their new contents; `psf_sndCreate` only reads the properties
(spec section 6: create yields an error code and a handle) and returns the error code and the
new contents of `*file`.  `filename` is the read of `impl->file->filename`. -/
structure Portsf (σ : Type) where
  PSF_E_NOERROR : Int
  PSF_CREATE_WRONLY : Int
  PSF_SEEK_SET : Int
  PSF_SEEK_CUR : Int
  PSF_SEEK_END : Int
  PSF_STDWAVE : Int
  PSF_AIFF : Int
  PSF_SAMP_16 : Int
  PSF_SAMP_24 : Int
  PSF_SAMP_IEEE_FLOAT : Int
  STDWAVE : Int
  psf_sndOpen : String → psf_props → Int → Nat → σ → Int × psf_props × Nat × σ
  psf_sndCreate : String → psf_props → Int → Int → Int → Nat → σ → Int × Nat × σ
  psf_sndReadFloatFrames : Nat → Nat → Int → σ → Int × σ
  psf_sndReadDoubleFrames : Nat → Nat → Int → σ → Int × σ
  psf_sndWriteFloatFrames : Nat → Nat → Int → σ → Int × σ
  psf_sndWriteDoubleFrames : Nat → Nat → Int → σ → Int × σ
  psf_sndClose : Nat → σ → Int × σ
  psf_sndSize : Nat → σ → Int × σ
  psf_sndSeek : Nat → Int → Int → σ → Int × σ
  filename : Nat → σ → String
  free : Nat → σ → σ

/-- Everything outside the object: the state of the library and heap, and the calls made. -/
structure World (σ : Type) where
  backend : σ
  trace : List Call

/-- Append one call to the trace. -/
def World.log {σ : Type} (w : World σ) (c : Call) : World σ :=
  { w with trace := w.trace ++ [c] }

variable {σ : Type}

/-- Member `SoundFile::markAsInvalid` (portsf.cpp lines 229-232). -/
def SoundFile.markAsInvalid (s : SoundFile) (w : World σ) : SoundFile × World σ :=
  ({ s with m_handleType := HandleType.INVALID }, w.log Call.markAsInvalid)

/-- Member `SoundFile::isRead` (lines 189-192). -/
def SoundFile.isRead (s : SoundFile) : Bool :=
  s.m_handleType == HandleType.READ

/-- Member `SoundFile::isWrite` (lines 193-196). -/
def SoundFile.isWrite (s : SoundFile) : Bool :=
  s.m_handleType == HandleType.WRITE

/-- Member `SoundFile::isValid` (lines 197-200). -/
def SoundFile.isValid (s : SoundFile) : Bool :=
  s.m_handleType != HandleType.INVALID

/-- Member `SoundFile::numChannels` (lines 174-177). -/
def SoundFile.numChannels (s : SoundFile) : Int :=
  s.impl.props.chans

/-- Member `SoundFile::sampleRate` (lines 184-187). -/
def SoundFile.sampleRate (s : SoundFile) : Int :=
  s.impl.props.srate

/-- Member `SoundFile::numFrames` (lines 179-182): asks the library, whatever the handle type. -/
def SoundFile.numFrames (B : Portsf σ) (s : SoundFile) (w : World σ) : Int × World σ :=
  let r := B.psf_sndSize s.impl.file w.backend
  (r.1, { backend := r.2, trace := w.trace ++ [Call.psf_sndSize s.impl.file] })

/-- Constructor `SoundFile::SoundFile(const char* path)` (lines 34-46).  `fresh` is the storage before
the constructor body runs: `new portsf_impl` and `m_handleType` are not initialised, the
member initialiser sets `isClosed(false)`. -/
def SoundFile.ctorRead (B : Portsf σ) (path : String) (fresh : SoundFile) (w : World σ) :
    SoundFile × World σ :=
  let s0 : SoundFile := { fresh with isClosed := false }
  let r := B.psf_sndOpen path s0.impl.props 0 s0.impl.file w.backend
  let error := r.1
  let s1 : SoundFile := { s0 with impl := { file := r.2.2.1, props := r.2.1 } }
  let w1 : World σ := { backend := r.2.2.2, trace := w.trace ++ [Call.psf_sndOpen path 0] }
  if s1.impl.file = nullptr ∨ error ≠ B.PSF_E_NOERROR then
    s1.markAsInvalid w1
  else
    ({ s1 with m_handleType := HandleType.READ }, w1)

/-- The properties the explicit-format constructor builds (lines 51-67), starting from the
uninitialised record `p0`. -/
def SoundFile.writeProps (B : Portsf σ) (p0 : psf_props) (headerFormat : HeaderFormat)
    (sampleFormat : SampleFormat) (numChannels sampleRate : Int) : psf_props :=
  let p1 : psf_props := { p0 with chans := numChannels }
  let p2 : psf_props := { p1 with chformat := B.STDWAVE }
  let p3 : psf_props :=
    match headerFormat with
    | HeaderFormat.WAV => { p2 with format := B.PSF_STDWAVE }
    | HeaderFormat.AIFF => { p2 with format := B.PSF_AIFF }
  let p4 : psf_props :=
    match sampleFormat with
    | SampleFormat.INT16 => { p3 with samptype := B.PSF_SAMP_16 }
    | SampleFormat.INT24 => { p3 with samptype := B.PSF_SAMP_24 }
    | SampleFormat.FLOAT32 => { p3 with samptype := B.PSF_SAMP_IEEE_FLOAT }
  { p4 with srate := sampleRate }

/-- Constructor `SoundFile::SoundFile(const char* path, const HeaderFormat, const SampleFormat,
const int numChannels, const int sampleRate)` (lines 48-78). -/
def SoundFile.ctorWrite (B : Portsf σ) (path : String) (headerFormat : HeaderFormat)
    (sampleFormat : SampleFormat) (numChannels sampleRate : Int)
    (fresh : SoundFile) (w : World σ) : SoundFile × World σ :=
  let s0 : SoundFile := { fresh with isClosed := false }
  let props := SoundFile.writeProps B s0.impl.props headerFormat sampleFormat numChannels sampleRate
  let r := B.psf_sndCreate path props 0 1 B.PSF_CREATE_WRONLY s0.impl.file w.backend
  let error := r.1
  let s1 : SoundFile := { s0 with impl := { file := r.2.1, props := props } }
  let w1 : World σ :=
    { backend := r.2.2,
      trace := w.trace ++ [Call.psf_sndCreate path props 0 1 B.PSF_CREATE_WRONLY] }
  if s1.impl.file = nullptr ∨ error ≠ B.PSF_E_NOERROR then
    s1.markAsInvalid w1
  else
    ({ s1 with m_handleType := HandleType.WRITE }, w1)

/-- The declaration of portsf.hpp line 63 with `sampleRate` omitted (default 44100). -/
def SoundFile.ctorWrite3 (B : Portsf σ) (path : String) (headerFormat : HeaderFormat)
    (sampleFormat : SampleFormat) (numChannels : Int) (fresh : SoundFile) (w : World σ) :
    SoundFile × World σ :=
  SoundFile.ctorWrite B path headerFormat sampleFormat numChannels 44100 fresh w

/-- The declaration of portsf.hpp line 63 with `numChannels` and `sampleRate` omitted
(defaults 2 and 44100). -/
def SoundFile.ctorWrite2 (B : Portsf σ) (path : String) (headerFormat : HeaderFormat)
    (sampleFormat : SampleFormat) (fresh : SoundFile) (w : World σ) : SoundFile × World σ :=
  SoundFile.ctorWrite B path headerFormat sampleFormat 2 44100 fresh w

/-- The declaration of portsf.hpp line 63 with `sampleFormat`, `numChannels` and `sampleRate`
omitted (defaults `SampleFormat::INT16`, 2 and 44100). -/
def SoundFile.ctorWrite1 (B : Portsf σ) (path : String) (headerFormat : HeaderFormat)
    (fresh : SoundFile) (w : World σ) : SoundFile × World σ :=
  SoundFile.ctorWrite B path headerFormat SampleFormat.INT16 2 44100 fresh w

/-- Constructor `SoundFile::SoundFile(const char* path, const SoundFile& readHandle)` (lines 80-100). -/
def SoundFile.ctorWriteFrom (B : Portsf σ) (path : String) (readHandle : SoundFile)
    (fresh : SoundFile) (w : World σ) : SoundFile × World σ :=
  let s0 : SoundFile := { fresh with isClosed := false }
  if readHandle.isValid then
    let s1 : SoundFile := { s0 with impl := { s0.impl with props := readHandle.impl.props } }
    let r := B.psf_sndCreate path s1.impl.props 0 1 B.PSF_CREATE_WRONLY s1.impl.file w.backend
    let error := r.1
    let s2 : SoundFile := { s1 with impl := { s1.impl with file := r.2.1 } }
    let w1 : World σ :=
      { backend := r.2.2,
        trace := w.trace ++ [Call.psf_sndCreate path s1.impl.props 0 1 B.PSF_CREATE_WRONLY] }
    if s2.impl.file = nullptr ∨ error ≠ B.PSF_E_NOERROR then
      s2.markAsInvalid w1
    else
      ({ s2 with m_handleType := HandleType.WRITE }, w1)
  else
    s0.markAsInvalid w

/-- Member `int SoundFile::read(float* where, const int numFrames)` (lines 102-113). -/
def SoundFile.read_float (B : Portsf σ) (s : SoundFile) (whereBuf : Nat) (numFrames : Int)
    (w : World σ) : Int × SoundFile × World σ :=
  if (s.m_handleType == HandleType.READ && s.m_handleType != HandleType.INVALID) = true then
    let r := B.psf_sndReadFloatFrames s.impl.file whereBuf numFrames w.backend
    (r.1, s, { backend := r.2,
               trace := w.trace ++ [Call.psf_sndReadFloatFrames s.impl.file whereBuf numFrames] })
  else
    (0, s, w.log (Call.cout "Not a valid READ handle\n"))

/-- Member `int SoundFile::read(double* where, const int numFrames)` (lines 115-126). -/
def SoundFile.read_double (B : Portsf σ) (s : SoundFile) (whereBuf : Nat) (numFrames : Int)
    (w : World σ) : Int × SoundFile × World σ :=
  if (s.m_handleType == HandleType.READ && s.m_handleType != HandleType.INVALID) = true then
    let r := B.psf_sndReadDoubleFrames s.impl.file whereBuf numFrames w.backend
    (r.1, s, { backend := r.2,
               trace := w.trace ++ [Call.psf_sndReadDoubleFrames s.impl.file whereBuf numFrames] })
  else
    (0, s, w.log (Call.cout "Not a valid READ handle\n"))

/-- Member `int SoundFile::write(float* what, const int numFrames)` (lines 128-139). -/
def SoundFile.write_float (B : Portsf σ) (s : SoundFile) (what : Nat) (numFrames : Int)
    (w : World σ) : Int × SoundFile × World σ :=
  if (s.m_handleType == HandleType.WRITE && s.m_handleType != HandleType.INVALID) = true then
    let r := B.psf_sndWriteFloatFrames s.impl.file what numFrames w.backend
    (r.1, s, { backend := r.2,
               trace := w.trace ++ [Call.psf_sndWriteFloatFrames s.impl.file what numFrames] })
  else
    (0, s, w.log (Call.cout "Not a valid WRITE handle\n"))

/-- Member `int SoundFile::write(double* what, const int numFrames)` (lines 141-152). -/
def SoundFile.write_double (B : Portsf σ) (s : SoundFile) (what : Nat) (numFrames : Int)
    (w : World σ) : Int × SoundFile × World σ :=
  if (s.m_handleType == HandleType.WRITE && s.m_handleType != HandleType.INVALID) = true then
    let r := B.psf_sndWriteDoubleFrames s.impl.file what numFrames w.backend
    (r.1, s, { backend := r.2,
               trace := w.trace ++ [Call.psf_sndWriteDoubleFrames s.impl.file what numFrames] })
  else
    (0, s, w.log (Call.cout "Not a valid WRITE handle\n"))

/-- Member `void SoundFile::close()` (lines 154-172). -/
def SoundFile.close (B : Portsf σ) (s : SoundFile) (w : World σ) : SoundFile × World σ :=
  if !s.isClosed then
    let m := s.markAsInvalid w
    let s1 := m.1
    let r := B.psf_sndClose s1.impl.file m.2.backend
    let error := r.1
    let w2 : World σ := { backend := r.2, trace := m.2.trace ++ [Call.psf_sndClose s1.impl.file] }
    let w3 : World σ :=
      if error ≠ B.PSF_E_NOERROR then
        { backend := B.free s1.impl.file w2.backend,
          trace := w2.trace ++ [Call.free s1.impl.file] }
      else w2
    let w4 := w3.log Call.delete_impl
    ({ s1 with isClosed := true }, w4)
  else
    (s, w)

/-- Destructor `SoundFile::~SoundFile` (lines 234-237). -/
def SoundFile.dtor (B : Portsf σ) (s : SoundFile) (w : World σ) : SoundFile × World σ :=
  s.close B w

/-- The `switch` of `SoundFile::seek` (lines 204-210). -/
def SoundFile.seekModeCode (B : Portsf σ) : SeekMode → Int
  | SeekMode.SET => B.PSF_SEEK_SET
  | SeekMode.CUR => B.PSF_SEEK_CUR
  | SeekMode.END => B.PSF_SEEK_END

/-- Member `void SoundFile::seek(int frameOffset, SeekMode seekMode)` (lines 202-213): no check of
the handle type. -/
def SoundFile.seek (B : Portsf σ) (s : SoundFile) (frameOffset : Int) (seekMode : SeekMode)
    (w : World σ) : SoundFile × World σ :=
  let mode := SoundFile.seekModeCode B seekMode
  let r := B.psf_sndSeek s.impl.file frameOffset mode w.backend
  (s, { backend := r.2, trace := w.trace ++ [Call.psf_sndSeek s.impl.file frameOffset mode] })

/-- Member `void SoundFile::dump()` (lines 215-227). -/
def SoundFile.dump (B : Portsf σ) (s : SoundFile) (w : World σ) : SoundFile × World σ :=
  let w1 := w.log (Call.cout ("HandleType: " ++ toString s.m_handleType.toInt ++ "\n"))
  if s.m_handleType ≠ HandleType.INVALID then
    let name := B.filename s.impl.file w1.backend
    let n := s.numFrames B w1
    (s, n.2.log (Call.cout ("\nSoundFile: " ++ name ++ "\n"
      ++ "Channels: " ++ toString s.numChannels ++ "\n"
      ++ "Frames: " ++ toString n.1 ++ "\n"
      ++ "HeaderFormat: " ++ toString s.impl.props.format ++ "\n"
      ++ "SampleFormat: " ++ toString s.impl.props.samptype ++ "\n"
      ++ "SampleRate: " ++ toString s.impl.props.srate ++ "\n")))
  else
    (s, w1)

/-- One public operation with its arguments. -/
inductive Op
  | read_float (whereBuf : Nat) (numFrames : Int)
  | read_double (whereBuf : Nat) (numFrames : Int)
  | write_float (what : Nat) (numFrames : Int)
  | write_double (what : Nat) (numFrames : Int)
  | seek (frameOffset : Int) (seekMode : SeekMode)
  | numChannels
  | numFrames
  | sampleRate
  | isRead
  | isWrite
  | isValid
  | dump
  | close
deriving DecidableEq, Repr

/-- The effect of one public operation on the object and the world, its result dropped. -/
def step (B : Portsf σ) (op : Op) (x : SoundFile × World σ) : SoundFile × World σ :=
  match op with
  | Op.read_float b n => (x.1.read_float B b n x.2).2
  | Op.read_double b n => (x.1.read_double B b n x.2).2
  | Op.write_float b n => (x.1.write_float B b n x.2).2
  | Op.write_double b n => (x.1.write_double B b n x.2).2
  | Op.seek o m => x.1.seek B o m x.2
  | Op.numChannels => x
  | Op.numFrames => (x.1, (x.1.numFrames B x.2).2)
  | Op.sampleRate => x
  | Op.isRead => x
  | Op.isWrite => x
  | Op.isValid => x
  | Op.dump => x.1.dump B x.2
  | Op.close => x.1.close B x.2

/-- A sequence of public operations, left to right. -/
def run (B : Portsf σ) (ops : List Op) (x : SoundFile × World σ) : SoundFile × World σ :=
  ops.foldl (fun y op => step B op y) x

/-- The constructors' test (lines 38, 70, 87) that a library open or create has failed: it
left no handle, or returned a code other than `PSF_E_NOERROR`. -/
def callFailed (B : Portsf σ) (error : Int) (file : Nat) : Prop :=
  file = nullptr ∨ error ≠ B.PSF_E_NOERROR

instance (B : Portsf σ) (error : Int) (file : Nat) : Decidable (callFailed B error file) :=
  inferInstanceAs (Decidable (file = nullptr ∨ error ≠ B.PSF_E_NOERROR))

/-- A sample library for running the definitions on concrete inputs.  Every open and create
returns the code `err` and leaves `handle` in `*file`; an open fills in 44100 Hz stereo
16-bit WAV; reads and writes return the frame count asked for; close returns `closeErr`.
The state counts the calls that act on a file.  The constants are sample values. -/
def stubBackend (err : Int) (handle : Nat) (closeErr : Int) : Portsf Nat where
  PSF_E_NOERROR := 0
  PSF_CREATE_WRONLY := 2
  PSF_SEEK_SET := 0
  PSF_SEEK_CUR := 1
  PSF_SEEK_END := 2
  PSF_STDWAVE := 1
  PSF_AIFF := 3
  PSF_SAMP_16 := 2
  PSF_SAMP_24 := 3
  PSF_SAMP_IEEE_FLOAT := 5
  STDWAVE := 0
  psf_sndOpen := fun _ _ _ _ n => (err, ⟨44100, 2, 2, 1, 0⟩, handle, n + 1)
  psf_sndCreate := fun _ _ _ _ _ _ n => (err, handle, n + 1)
  psf_sndReadFloatFrames := fun _ _ k n => (k, n + 1)
  psf_sndReadDoubleFrames := fun _ _ k n => (k, n + 1)
  psf_sndWriteFloatFrames := fun _ _ k n => (k, n + 1)
  psf_sndWriteDoubleFrames := fun _ _ k n => (k, n + 1)
  psf_sndClose := fun _ n => (closeErr, n + 1)
  psf_sndSize := fun _ n => (0, n)
  psf_sndSeek := fun _ _ _ n => (0, n + 1)
  filename := fun _ _ => "a.wav"
  free := fun _ n => n + 1

/-- Sample contents of uninitialised storage: a stray pointer, stray properties, a stray
handle type and flag. -/
def fresh0 : SoundFile :=
  { impl := { file := 57005, props := ⟨-1, -1, -1, -1, -1⟩ },
    m_handleType := HandleType.READ,
    isClosed := true }

/-- A sample world: library state 0, nothing called yet. -/
def world0 : World Nat :=
  { backend := 0, trace := [] }

/-- A sample read handle, valid, with 48000 Hz mono float AIFF properties. -/
def readHandle0 : SoundFile :=
  { impl := { file := 9, props := ⟨48000, 1, 5, 3, 0⟩ },
    m_handleType := HandleType.READ,
    isClosed := false }

/-- The object and the world as one of the three constructors leaves them. -/
inductive Constructed (B : Portsf σ) : SoundFile × World σ → Prop
  | read (path : String) (fresh : SoundFile) (w : World σ) :
      Constructed B (SoundFile.ctorRead B path fresh w)
  | write (path : String) (hf : HeaderFormat) (sf : SampleFormat) (numChannels sampleRate : Int)
      (fresh : SoundFile) (w : World σ) :
      Constructed B (SoundFile.ctorWrite B path hf sf numChannels sampleRate fresh w)
  | writeFrom (path : String) (readHandle fresh : SoundFile) (w : World σ) :
      Constructed B (SoundFile.ctorWriteFrom B path readHandle fresh w)

/-- The object and the world as a constructor that did call the library leaves them: open for
read, create with an explicit format, or mirroring create from a valid source. -/
inductive ConstructedByCall (B : Portsf σ) : SoundFile × World σ → Prop
  | read (path : String) (fresh : SoundFile) (w : World σ) :
      ConstructedByCall B (SoundFile.ctorRead B path fresh w)
  | write (path : String) (hf : HeaderFormat) (sf : SampleFormat) (numChannels sampleRate : Int)
      (fresh : SoundFile) (w : World σ) :
      ConstructedByCall B (SoundFile.ctorWrite B path hf sf numChannels sampleRate fresh w)
  | writeFrom (path : String) (readHandle fresh : SoundFile) (w : World σ) :
      readHandle.isValid = true →
      ConstructedByCall B (SoundFile.ctorWriteFrom B path readHandle fresh w)

/-- The states an object goes through: an initial state satisfying `P`, then any public
operations on it, the world being free to change in between (other objects and the rest of
the program act on the same library). -/
inductive ReachableFrom (B : Portsf σ) (P : SoundFile × World σ → Prop) :
    SoundFile × World σ → Prop
  | init (x : SoundFile × World σ) : P x → ReachableFrom B P x
  | step (op : Op) (x : SoundFile × World σ) : ReachableFrom B P x → ReachableFrom B P (step B op x)
  | world (x : SoundFile × World σ) (w : World σ) : ReachableFrom B P x → ReachableFrom B P (x.1, w)

/-- The object holds no usable library handle: the stored handle is null, or close has
already released it. -/
def SoundFile.holdsNoHandle (s : SoundFile) : Prop :=
  s.impl.file = nullptr ∨ s.isClosed = true

instance (s : SoundFile) : Decidable s.holdsNoHandle :=
  inferInstanceAs (Decidable (s.impl.file = nullptr ∨ s.isClosed = true))

/-- The library leaves a null handle whenever an open or create returns a code other than
`PSF_E_NOERROR`. -/
def FailsWithNull (B : Portsf σ) : Prop :=
  (∀ (path : String) (props : psf_props) (rescale : Int) (file : Nat) (b : σ),
    (B.psf_sndOpen path props rescale file b).1 ≠ B.PSF_E_NOERROR →
    (B.psf_sndOpen path props rescale file b).2.2.1 = nullptr) ∧
  (∀ (path : String) (props : psf_props) (clip minheader mode : Int) (file : Nat) (b : σ),
    (B.psf_sndCreate path props clip minheader mode file b).1 ≠ B.PSF_E_NOERROR →
    (B.psf_sndCreate path props clip minheader mode file b).2.1 = nullptr)

/-- The calls a run appended to the trace `before`. -/
def newCalls (before : List Call) (x : SoundFile × World σ) : List Call :=
  x.2.trace.drop before.length

/-- Modelled from the spec: the body of `psf_sndClose` is not among the sources.  The spec
(sections 4.6 and 6) and the comment at portsf.cpp line 164 give its contract: the library
frees the handle struct itself exactly when it returns `PSF_E_NOERROR`.  This is the number
of times the library frees the struct in a close that returns `error`. -/
def libraryFrees (B : Portsf σ) (error : Int) : Nat :=
  if error = B.PSF_E_NOERROR then 1 else 0

/-- The number of `free(file)` calls of the wrapper in a list of calls. -/
def wrapperFrees (file : Nat) (calls : List Call) : Nat :=
  calls.count (Call.free file)

/-- The number of operations of the sequence at which `isClosed` goes from false to true. -/
def closedFlips (B : Portsf σ) : List Op → SoundFile × World σ → Nat
  | [], _ => 0
  | op :: ops, x =>
    (if x.1.isClosed = false ∧ (step B op x).1.isClosed = true then 1 else 0)
      + closedFlips B ops (step B op x)

/-- A sample write handle, valid. -/
def writeHandle0 : SoundFile :=
  { impl := { file := 11, props := ⟨44100, 2, 2, 1, 0⟩ },
    m_handleType := HandleType.WRITE,
    isClosed := false }

/-! ## Facts about the predicates on the handle type -/

theorem isValid_false_iff (s : SoundFile) :
    s.isValid = false ↔ s.m_handleType = HandleType.INVALID := by
  simp [SoundFile.isValid]

theorem isValid_true_iff (s : SoundFile) :
    s.isValid = true ↔ s.m_handleType ≠ HandleType.INVALID := by
  simp [SoundFile.isValid]

/-! ## Facts about single operations -/

theorem step_obj_of_ne_close (B : Portsf σ) (op : Op) (x : SoundFile × World σ)
    (h : op ≠ Op.close) : (step B op x).1 = x.1 := by
  cases op <;>
    first
    | exact absurd rfl h
    | (simp only [step, SoundFile.read_float, SoundFile.read_double, SoundFile.write_float,
        SoundFile.write_double, SoundFile.seek, SoundFile.dump]
       try split_ifs
       all_goals rfl)

theorem close_of_closed (B : Portsf σ) (s : SoundFile) (w : World σ) (h : s.isClosed = true) :
    s.close B w = (s, w) := by
  simp [SoundFile.close, h]

theorem close_obj_of_open (B : Portsf σ) (s : SoundFile) (w : World σ)
    (h : s.isClosed = false) :
    (s.close B w).1 = { s with m_handleType := HandleType.INVALID, isClosed := true } := by
  simp [SoundFile.close, h, SoundFile.markAsInvalid]

theorem close_trace_of_open (B : Portsf σ) (s : SoundFile) (w : World σ)
    (h : s.isClosed = false) :
    (s.close B w).2.trace
      = w.trace ++ [Call.markAsInvalid, Call.psf_sndClose s.impl.file]
        ++ (if (B.psf_sndClose s.impl.file w.backend).1 ≠ B.PSF_E_NOERROR
            then [Call.free s.impl.file] else [])
        ++ [Call.delete_impl] := by
  simp only [SoundFile.close, h, SoundFile.markAsInvalid, World.log]
  split_ifs <;> simp_all

theorem close_isClosed (B : Portsf σ) (s : SoundFile) (w : World σ) :
    (s.close B w).1.isClosed = true := by
  cases h : s.isClosed
  · rw [close_obj_of_open B s w h]
  · rw [close_of_closed B s w h]; exact h

theorem step_keeps_closed (B : Portsf σ) (op : Op) (x : SoundFile × World σ)
    (h : x.1.isClosed = true) : (step B op x).1.isClosed = true := by
  by_cases hc : op = Op.close
  · subst hc
    exact close_isClosed B x.1 x.2
  · rw [step_obj_of_ne_close B op x hc]; exact h

theorem run_cons (B : Portsf σ) (op : Op) (ops : List Op) (x : SoundFile × World σ) :
    run B (op :: ops) x = run B ops (step B op x) := rfl

theorem newCalls_append (t extra : List Call) (x : SoundFile × World σ)
    (h : x.2.trace = t ++ extra) : newCalls t x = extra := by
  simp [newCalls, h]

/-- In every state reached from a constructor, a handle whose type is not INVALID is non-null
and has not been closed. -/
theorem valid_holds_handle (B : Portsf σ) (x : SoundFile × World σ)
    (h : ReachableFrom B (Constructed B) x) :
    x.1.m_handleType ≠ HandleType.INVALID → x.1.impl.file ≠ nullptr ∧ x.1.isClosed = false := by
  induction h with
  | init x hx =>
    cases hx with
    | read path fresh w =>
      simp only [SoundFile.ctorRead]
      split_ifs with hf <;> simp_all [SoundFile.markAsInvalid]
    | write path hf sf numChannels sampleRate fresh w =>
      simp only [SoundFile.ctorWrite]
      split_ifs with hf <;> simp_all [SoundFile.markAsInvalid]
    | writeFrom path readHandle fresh w =>
      simp only [SoundFile.ctorWriteFrom]
      split_ifs with hv hf <;> simp_all [SoundFile.markAsInvalid]
  | step op x _ ih =>
    by_cases hc : op = Op.close
    · subst hc
      intro hne
      exfalso
      apply hne
      show (x.1.close B x.2).1.m_handleType = HandleType.INVALID
      cases hcl : x.1.isClosed
      · rw [close_obj_of_open B x.1 x.2 hcl]
      · rw [close_of_closed B x.1 x.2 hcl]
        by_contra hne2
        have := (ih hne2).2
        simp_all
    · rw [step_obj_of_ne_close B op x hc]; exact ih
  | world x w _ ih => exact ih

/-! ## Construction -/

/-- C1: for each of the three constructors, when the library open/create it calls leaves a
null handle or returns a code other than PSF_E_NOERROR, the constructed object has
isValid() == false, isRead() == false and isWrite() == false.  (For the mirroring
constructor this holds whether or not the source is valid.) -/
theorem ctor_backend_failure_invalid (B : Portsf σ) (path : String) (fresh : SoundFile)
    (w : World σ) :
    (callFailed B (B.psf_sndOpen path fresh.impl.props 0 fresh.impl.file w.backend).1
        (B.psf_sndOpen path fresh.impl.props 0 fresh.impl.file w.backend).2.2.1 →
      (SoundFile.ctorRead B path fresh w).1.isValid = false ∧
      (SoundFile.ctorRead B path fresh w).1.isRead = false ∧
      (SoundFile.ctorRead B path fresh w).1.isWrite = false) ∧
    (∀ (hf : HeaderFormat) (sf : SampleFormat) (numChannels sampleRate : Int),
      callFailed B
        (B.psf_sndCreate path (SoundFile.writeProps B fresh.impl.props hf sf numChannels sampleRate)
          0 1 B.PSF_CREATE_WRONLY fresh.impl.file w.backend).1
        (B.psf_sndCreate path (SoundFile.writeProps B fresh.impl.props hf sf numChannels sampleRate)
          0 1 B.PSF_CREATE_WRONLY fresh.impl.file w.backend).2.1 →
      (SoundFile.ctorWrite B path hf sf numChannels sampleRate fresh w).1.isValid = false ∧
      (SoundFile.ctorWrite B path hf sf numChannels sampleRate fresh w).1.isRead = false ∧
      (SoundFile.ctorWrite B path hf sf numChannels sampleRate fresh w).1.isWrite = false) ∧
    (∀ readHandle : SoundFile,
      callFailed B
        (B.psf_sndCreate path readHandle.impl.props 0 1 B.PSF_CREATE_WRONLY
          fresh.impl.file w.backend).1
        (B.psf_sndCreate path readHandle.impl.props 0 1 B.PSF_CREATE_WRONLY
          fresh.impl.file w.backend).2.1 →
      (SoundFile.ctorWriteFrom B path readHandle fresh w).1.isValid = false ∧
      (SoundFile.ctorWriteFrom B path readHandle fresh w).1.isRead = false ∧
      (SoundFile.ctorWriteFrom B path readHandle fresh w).1.isWrite = false) := by
  refine ⟨?_, ?_, ?_⟩
  · intro h
    unfold callFailed at h
    simp [SoundFile.ctorRead, SoundFile.markAsInvalid, SoundFile.isValid, SoundFile.isRead,
      SoundFile.isWrite, h]
  · intro hf sf numChannels sampleRate h
    unfold callFailed at h
    simp [SoundFile.ctorWrite, SoundFile.markAsInvalid, SoundFile.isValid, SoundFile.isRead,
      SoundFile.isWrite, h]
  · intro readHandle h
    unfold callFailed at h
    by_cases hv : readHandle.m_handleType = HandleType.INVALID
    · simp [SoundFile.ctorWriteFrom, SoundFile.markAsInvalid, SoundFile.isValid,
        SoundFile.isRead, SoundFile.isWrite, hv]
    · simp [SoundFile.ctorWriteFrom, SoundFile.markAsInvalid, SoundFile.isValid,
        SoundFile.isRead, SoundFile.isWrite, h, hv]

/-- Witness of C1: a library that fails every open and create (code -1, null handle). -/
theorem ctor_backend_failure_invalid_witness :
    callFailed (stubBackend (-1) 0 0)
      ((stubBackend (-1) 0 0).psf_sndOpen "in.wav" fresh0.impl.props 0 fresh0.impl.file
        world0.backend).1
      ((stubBackend (-1) 0 0).psf_sndOpen "in.wav" fresh0.impl.props 0 fresh0.impl.file
        world0.backend).2.2.1 ∧
    ((SoundFile.ctorRead (stubBackend (-1) 0 0) "in.wav" fresh0 world0).1.isValid = false ∧
      (SoundFile.ctorRead (stubBackend (-1) 0 0) "in.wav" fresh0 world0).1.isRead = false ∧
      (SoundFile.ctorRead (stubBackend (-1) 0 0) "in.wav" fresh0 world0).1.isWrite = false) ∧
    ((SoundFile.ctorWrite (stubBackend (-1) 0 0) "out.wav" HeaderFormat.WAV SampleFormat.INT24
        1 48000 fresh0 world0).1.isValid = false ∧
      (SoundFile.ctorWrite (stubBackend (-1) 0 0) "out.wav" HeaderFormat.WAV SampleFormat.INT24
        1 48000 fresh0 world0).1.isRead = false ∧
      (SoundFile.ctorWrite (stubBackend (-1) 0 0) "out.wav" HeaderFormat.WAV SampleFormat.INT24
        1 48000 fresh0 world0).1.isWrite = false) ∧
    ((SoundFile.ctorWriteFrom (stubBackend (-1) 0 0) "out.wav" readHandle0 fresh0
        world0).1.isValid = false ∧
      (SoundFile.ctorWriteFrom (stubBackend (-1) 0 0) "out.wav" readHandle0 fresh0
        world0).1.isRead = false ∧
      (SoundFile.ctorWriteFrom (stubBackend (-1) 0 0) "out.wav" readHandle0 fresh0
        world0).1.isWrite = false) :=
  ⟨Or.inl rfl,
   (ctor_backend_failure_invalid (stubBackend (-1) 0 0) "in.wav" fresh0 world0).1 (Or.inl rfl),
   (ctor_backend_failure_invalid (stubBackend (-1) 0 0) "out.wav" fresh0 world0).2.1
     HeaderFormat.WAV SampleFormat.INT24 1 48000 (Or.inl rfl),
   (ctor_backend_failure_invalid (stubBackend (-1) 0 0) "out.wav" fresh0 world0).2.2
     readHandle0 (Or.inl rfl)⟩

/-- C4: for every path and every source handle with isValid() == false, the mirroring
constructor yields an object with isValid() == false; it calls nothing but markAsInvalid(),
so no psf_sndCreate is made, and the library state is the one it started from. -/
theorem ctorWriteFrom_invalid_source (B : Portsf σ) (path : String)
    (readHandle fresh : SoundFile) (w : World σ) (h : readHandle.isValid = false) :
    (SoundFile.ctorWriteFrom B path readHandle fresh w).1.isValid = false ∧
    (SoundFile.ctorWriteFrom B path readHandle fresh w).2.trace
      = w.trace ++ [Call.markAsInvalid] ∧
    (∀ c ∈ newCalls w.trace (SoundFile.ctorWriteFrom B path readHandle fresh w),
      c.isBackend = false) ∧
    (SoundFile.ctorWriteFrom B path readHandle fresh w).2.backend = w.backend := by
  rw [isValid_false_iff] at h
  simp [SoundFile.ctorWriteFrom, h, SoundFile.markAsInvalid, SoundFile.isValid, World.log,
    newCalls, Call.isBackend]

/-- Witness of C4: the source is a read handle that has been closed. -/
theorem ctorWriteFrom_invalid_source_witness :
    (readHandle0.close (stubBackend 0 5 0) world0).1.isValid = false ∧
    (SoundFile.ctorWriteFrom (stubBackend 0 5 0) "out.wav"
      (readHandle0.close (stubBackend 0 5 0) world0).1 fresh0 world0).1.isValid = false ∧
    (SoundFile.ctorWriteFrom (stubBackend 0 5 0) "out.wav"
      (readHandle0.close (stubBackend 0 5 0) world0).1 fresh0 world0).2.trace
      = world0.trace ++ [Call.markAsInvalid] ∧
    (∀ c ∈ newCalls world0.trace (SoundFile.ctorWriteFrom (stubBackend 0 5 0) "out.wav"
        (readHandle0.close (stubBackend 0 5 0) world0).1 fresh0 world0),
      c.isBackend = false) ∧
    (SoundFile.ctorWriteFrom (stubBackend 0 5 0) "out.wav"
      (readHandle0.close (stubBackend 0 5 0) world0).1 fresh0 world0).2.backend
      = world0.backend :=
  ⟨rfl, ctorWriteFrom_invalid_source (stubBackend 0 5 0) "out.wav"
    (readHandle0.close (stubBackend 0 5 0) world0).1 fresh0 world0 rfl⟩

/-- C5: for every valid source handle and every path, the mirroring constructor makes one
library call, psf_sndCreate in write-only mode, with a properties record equal to the
source's (all five fields), keeps that record, and its numChannels() and sampleRate() equal
the source's. -/
theorem ctorWriteFrom_mirrors_props (B : Portsf σ) (path : String)
    (readHandle fresh : SoundFile) (w : World σ) (h : readHandle.isValid = true) :
    (newCalls w.trace (SoundFile.ctorWriteFrom B path readHandle fresh w)).filter Call.isBackend
      = [Call.psf_sndCreate path readHandle.impl.props 0 1 B.PSF_CREATE_WRONLY] ∧
    (SoundFile.ctorWriteFrom B path readHandle fresh w).1.impl.props = readHandle.impl.props ∧
    (SoundFile.ctorWriteFrom B path readHandle fresh w).1.numChannels = readHandle.numChannels ∧
    (SoundFile.ctorWriteFrom B path readHandle fresh w).1.sampleRate = readHandle.sampleRate := by
  simp only [SoundFile.ctorWriteFrom, h, if_true]
  split_ifs <;>
    simp [SoundFile.markAsInvalid, World.log, newCalls, Call.isBackend, SoundFile.numChannels,
      SoundFile.sampleRate]

/-- Witness of C5: mirroring a valid 48000 Hz mono read handle. -/
theorem ctorWriteFrom_mirrors_props_witness :
    readHandle0.isValid = true ∧
    (newCalls world0.trace
        (SoundFile.ctorWriteFrom (stubBackend 0 5 0) "out.aif" readHandle0 fresh0 world0)).filter
        Call.isBackend
      = [Call.psf_sndCreate "out.aif" readHandle0.impl.props 0 1
          (stubBackend 0 5 0).PSF_CREATE_WRONLY] ∧
    (SoundFile.ctorWriteFrom (stubBackend 0 5 0) "out.aif" readHandle0 fresh0 world0).1.impl.props
      = readHandle0.impl.props ∧
    (SoundFile.ctorWriteFrom (stubBackend 0 5 0) "out.aif" readHandle0 fresh0 world0).1.numChannels
      = readHandle0.numChannels ∧
    (SoundFile.ctorWriteFrom (stubBackend 0 5 0) "out.aif" readHandle0 fresh0 world0).1.sampleRate
      = readHandle0.sampleRate :=
  ⟨rfl, ctorWriteFrom_mirrors_props (stubBackend 0 5 0) "out.aif" readHandle0 fresh0 world0 rfl⟩

/-- C7: for every path, header format, sample format, channel count and sample rate (of any
sign), the explicit-format constructor makes one library call, psf_sndCreate in mode
PSF_CREATE_WRONLY, with a properties record whose chans and srate are the arguments, format
is PSF_STDWAVE for WAV and PSF_AIFF for AIFF, samptype is PSF_SAMP_16 / PSF_SAMP_24 /
PSF_SAMP_IEEE_FLOAT for INT16 / INT24 / FLOAT32 and chformat is STDWAVE; omitted arguments
stand for INT16, 2 and 44100; when the call returns PSF_E_NOERROR and a non-null handle the
object is a WRITE handle whose numChannels() and sampleRate() are the arguments. -/
theorem ctorWrite_props (B : Portsf σ) (path : String) (hf : HeaderFormat) (sf : SampleFormat)
    (numChannels sampleRate : Int) (fresh : SoundFile) (w : World σ) :
    (∃ p : psf_props,
      (newCalls w.trace
          (SoundFile.ctorWrite B path hf sf numChannels sampleRate fresh w)).filter Call.isBackend
        = [Call.psf_sndCreate path p 0 1 B.PSF_CREATE_WRONLY] ∧
      p = SoundFile.writeProps B fresh.impl.props hf sf numChannels sampleRate ∧
      p.chans = numChannels ∧ p.srate = sampleRate ∧ p.chformat = B.STDWAVE ∧
      (hf = HeaderFormat.WAV → p.format = B.PSF_STDWAVE) ∧
      (hf = HeaderFormat.AIFF → p.format = B.PSF_AIFF) ∧
      (sf = SampleFormat.INT16 → p.samptype = B.PSF_SAMP_16) ∧
      (sf = SampleFormat.INT24 → p.samptype = B.PSF_SAMP_24) ∧
      (sf = SampleFormat.FLOAT32 → p.samptype = B.PSF_SAMP_IEEE_FLOAT)) ∧
    (¬ callFailed B
        (B.psf_sndCreate path (SoundFile.writeProps B fresh.impl.props hf sf numChannels sampleRate)
          0 1 B.PSF_CREATE_WRONLY fresh.impl.file w.backend).1
        (B.psf_sndCreate path (SoundFile.writeProps B fresh.impl.props hf sf numChannels sampleRate)
          0 1 B.PSF_CREATE_WRONLY fresh.impl.file w.backend).2.1 →
      (SoundFile.ctorWrite B path hf sf numChannels sampleRate fresh w).1.m_handleType
        = HandleType.WRITE ∧
      (SoundFile.ctorWrite B path hf sf numChannels sampleRate fresh w).1.isWrite = true ∧
      (SoundFile.ctorWrite B path hf sf numChannels sampleRate fresh w).1.numChannels
        = numChannels ∧
      (SoundFile.ctorWrite B path hf sf numChannels sampleRate fresh w).1.sampleRate
        = sampleRate) ∧
    SoundFile.ctorWrite3 B path hf sf numChannels fresh w
      = SoundFile.ctorWrite B path hf sf numChannels 44100 fresh w ∧
    SoundFile.ctorWrite2 B path hf sf fresh w
      = SoundFile.ctorWrite B path hf sf 2 44100 fresh w ∧
    SoundFile.ctorWrite1 B path hf fresh w
      = SoundFile.ctorWrite B path hf SampleFormat.INT16 2 44100 fresh w := by
  refine ⟨⟨_, ?_, rfl, ?_⟩, ?_, rfl, rfl, rfl⟩
  · simp only [SoundFile.ctorWrite]
    split_ifs <;> simp [SoundFile.markAsInvalid, World.log, newCalls, Call.isBackend]
  · cases hf <;> cases sf <;> simp [SoundFile.writeProps]
  · intro h
    unfold callFailed at h
    simp only [SoundFile.ctorWrite, if_neg h]
    cases hf <;> cases sf <;>
      simp [SoundFile.isWrite, SoundFile.numChannels, SoundFile.sampleRate, SoundFile.writeProps]

/-- Witness of C7: a successful create of a FLOAT32 AIFF file with -3 channels at 0 Hz. -/
theorem ctorWrite_props_witness :
    ¬ callFailed (stubBackend 0 5 0)
        ((stubBackend 0 5 0).psf_sndCreate "out.aif"
          (SoundFile.writeProps (stubBackend 0 5 0) fresh0.impl.props HeaderFormat.AIFF
            SampleFormat.FLOAT32 (-3) 0)
          0 1 (stubBackend 0 5 0).PSF_CREATE_WRONLY fresh0.impl.file world0.backend).1
        ((stubBackend 0 5 0).psf_sndCreate "out.aif"
          (SoundFile.writeProps (stubBackend 0 5 0) fresh0.impl.props HeaderFormat.AIFF
            SampleFormat.FLOAT32 (-3) 0)
          0 1 (stubBackend 0 5 0).PSF_CREATE_WRONLY fresh0.impl.file world0.backend).2.1 ∧
    (SoundFile.ctorWrite (stubBackend 0 5 0) "out.aif" HeaderFormat.AIFF SampleFormat.FLOAT32
        (-3) 0 fresh0 world0).1.m_handleType = HandleType.WRITE ∧
    (SoundFile.ctorWrite (stubBackend 0 5 0) "out.aif" HeaderFormat.AIFF SampleFormat.FLOAT32
        (-3) 0 fresh0 world0).1.isWrite = true ∧
    (SoundFile.ctorWrite (stubBackend 0 5 0) "out.aif" HeaderFormat.AIFF SampleFormat.FLOAT32
        (-3) 0 fresh0 world0).1.numChannels = -3 ∧
    (SoundFile.ctorWrite (stubBackend 0 5 0) "out.aif" HeaderFormat.AIFF SampleFormat.FLOAT32
        (-3) 0 fresh0 world0).1.sampleRate = 0 :=
  ⟨by unfold callFailed; decide,
   (ctorWrite_props (stubBackend 0 5 0) "out.aif" HeaderFormat.AIFF SampleFormat.FLOAT32
      (-3) 0 fresh0 world0).2.1 (by unfold callFailed; decide)⟩

/-! ## Read and write on a handle of the other direction -/

/-- C2: on a handle whose type is not READ, both read overloads return 0, call nothing but
the diagnostic output (no library call), and leave the object (handle type, isClosed,
properties) and the library state unchanged; on a handle whose type is not WRITE the same
holds of both write overloads. -/
theorem read_write_wrong_direction (B : Portsf σ) (s : SoundFile) (buf : Nat) (numFrames : Int)
    (w : World σ) :
    (s.m_handleType ≠ HandleType.READ →
      s.read_float B buf numFrames w
        = (0, s, { backend := w.backend,
                   trace := w.trace ++ [Call.cout "Not a valid READ handle\n"] }) ∧
      s.read_double B buf numFrames w
        = (0, s, { backend := w.backend,
                   trace := w.trace ++ [Call.cout "Not a valid READ handle\n"] }) ∧
      (∀ c ∈ newCalls w.trace (s.read_float B buf numFrames w).2, c.isBackend = false) ∧
      (∀ c ∈ newCalls w.trace (s.read_double B buf numFrames w).2, c.isBackend = false)) ∧
    (s.m_handleType ≠ HandleType.WRITE →
      s.write_float B buf numFrames w
        = (0, s, { backend := w.backend,
                   trace := w.trace ++ [Call.cout "Not a valid WRITE handle\n"] }) ∧
      s.write_double B buf numFrames w
        = (0, s, { backend := w.backend,
                   trace := w.trace ++ [Call.cout "Not a valid WRITE handle\n"] }) ∧
      (∀ c ∈ newCalls w.trace (s.write_float B buf numFrames w).2, c.isBackend = false) ∧
      (∀ c ∈ newCalls w.trace (s.write_double B buf numFrames w).2, c.isBackend = false)) := by
  constructor <;> intro h <;>
    simp [SoundFile.read_float, SoundFile.read_double, SoundFile.write_float,
      SoundFile.write_double, h, World.log, newCalls, Call.isBackend]

/-- Witness of C2: reading from a write handle and writing to a read handle. -/
theorem read_write_wrong_direction_witness :
    writeHandle0.m_handleType ≠ HandleType.READ ∧
    writeHandle0.read_float (stubBackend 0 5 0) 4096 64 world0
      = (0, writeHandle0,
          { backend := world0.backend,
            trace := world0.trace ++ [Call.cout "Not a valid READ handle\n"] }) ∧
    (SoundFile.markAsInvalid readHandle0 world0).1.m_handleType ≠ HandleType.WRITE ∧
    (SoundFile.markAsInvalid readHandle0 world0).1.write_double (stubBackend 0 5 0) 4096 64 world0
      = (0, (SoundFile.markAsInvalid readHandle0 world0).1,
          { backend := world0.backend,
            trace := world0.trace ++ [Call.cout "Not a valid WRITE handle\n"] }) :=
  ⟨by decide,
   ((read_write_wrong_direction (stubBackend 0 5 0) writeHandle0 4096 64 world0).1
      (by decide)).1,
   by decide,
   ((read_write_wrong_direction (stubBackend 0 5 0)
      (SoundFile.markAsInvalid readHandle0 world0).1 4096 64 world0).2 (by decide)).2.1⟩

/-! ## Direction and properties are fixed -/

/-- C9: after any finite sequence of read, write, seek, numChannels, numFrames, sampleRate,
isRead, isWrite, isValid and dump (no close), the handle type, the isClosed flag and the
properties record are those the sequence started from (for any starting object, so also for
one just constructed); and an operation that changes the handle type is close, and it
changes it to INVALID. -/
theorem handle_fixed_until_close (B : Portsf σ) (x : SoundFile × World σ) (ops : List Op) :
    (Op.close ∉ ops →
      (run B ops x).1.m_handleType = x.1.m_handleType ∧
      (run B ops x).1.isClosed = x.1.isClosed ∧
      (run B ops x).1.impl.props = x.1.impl.props) ∧
    (∀ op : Op, (step B op x).1.m_handleType ≠ x.1.m_handleType →
      op = Op.close ∧ (step B op x).1.m_handleType = HandleType.INVALID) := by
  constructor
  · intro h
    have key : (run B ops x).1 = x.1 := by
      induction ops generalizing x with
      | nil => rfl
      | cons op ops ih =>
        have hop : op ≠ Op.close := fun e => h (e ▸ List.mem_cons_self _ _)
        have hrest : Op.close ∉ ops := fun m => h (List.mem_cons_of_mem _ m)
        rw [run_cons, ih (step B op x) hrest, step_obj_of_ne_close B op x hop]
    rw [key]
    exact ⟨rfl, rfl, rfl⟩
  · intro op hne
    by_cases hc : op = Op.close
    · subst hc
      refine ⟨rfl, ?_⟩
      show (x.1.close B x.2).1.m_handleType = HandleType.INVALID
      cases hcl : x.1.isClosed
      · rw [close_obj_of_open B x.1 x.2 hcl]
      · exfalso
        apply hne
        show (x.1.close B x.2).1.m_handleType = x.1.m_handleType
        rw [close_of_closed B x.1 x.2 hcl]
    · exact absurd (by rw [step_obj_of_ne_close B op x hc]) hne

/-- Witness of C9: a read handle opened with success, then read, seek, a misdirected write,
numFrames and dump. -/
theorem handle_fixed_until_close_witness :
    Op.close ∉ [Op.read_float 4096 64, Op.seek 0 SeekMode.SET, Op.write_double 4096 64,
      Op.numFrames, Op.dump] ∧
    (run (stubBackend 0 5 0)
        [Op.read_float 4096 64, Op.seek 0 SeekMode.SET, Op.write_double 4096 64,
          Op.numFrames, Op.dump]
        (SoundFile.ctorRead (stubBackend 0 5 0) "in.wav" fresh0 world0)).1.m_handleType
      = (SoundFile.ctorRead (stubBackend 0 5 0) "in.wav" fresh0 world0).1.m_handleType ∧
    (run (stubBackend 0 5 0)
        [Op.read_float 4096 64, Op.seek 0 SeekMode.SET, Op.write_double 4096 64,
          Op.numFrames, Op.dump]
        (SoundFile.ctorRead (stubBackend 0 5 0) "in.wav" fresh0 world0)).1.isClosed
      = (SoundFile.ctorRead (stubBackend 0 5 0) "in.wav" fresh0 world0).1.isClosed ∧
    (run (stubBackend 0 5 0)
        [Op.read_float 4096 64, Op.seek 0 SeekMode.SET, Op.write_double 4096 64,
          Op.numFrames, Op.dump]
        (SoundFile.ctorRead (stubBackend 0 5 0) "in.wav" fresh0 world0)).1.impl.props
      = (SoundFile.ctorRead (stubBackend 0 5 0) "in.wav" fresh0 world0).1.impl.props :=
  ⟨by decide,
   (handle_fixed_until_close (stubBackend 0 5 0)
      (SoundFile.ctorRead (stubBackend 0 5 0) "in.wav" fresh0 world0)
      [Op.read_float 4096 64, Op.seek 0 SeekMode.SET, Op.write_double 4096 64,
        Op.numFrames, Op.dump]).1 (by decide)⟩

/-! ## Close -/

/-- C10: on an object with isClosed == false (so on every handle just constructed), close
calls, in this order, markAsInvalid(), psf_sndClose once on the stored handle, free on that
handle exactly when psf_sndClose returned a code other than PSF_E_NOERROR, and delete impl;
it leaves the handle type INVALID and isClosed true.  With a library that frees the handle
struct exactly when it returns PSF_E_NOERROR, the struct is freed once in both branches.
Over any sequence of operations, close calls and teardown included, isClosed goes from false
to true at most once. -/
theorem close_releases_once (B : Portsf σ) (s : SoundFile) (w : World σ) (ops : List Op)
    (x : SoundFile × World σ) :
    (s.isClosed = false →
      (s.close B w).1 = { s with m_handleType := HandleType.INVALID, isClosed := true } ∧
      newCalls w.trace (s.close B w)
        = [Call.markAsInvalid, Call.psf_sndClose s.impl.file]
          ++ (if (B.psf_sndClose s.impl.file w.backend).1 ≠ B.PSF_E_NOERROR
              then [Call.free s.impl.file] else [])
          ++ [Call.delete_impl] ∧
      (newCalls w.trace (s.close B w)).filter Call.isBackend
        = [Call.psf_sndClose s.impl.file] ∧
      (wrapperFrees s.impl.file (newCalls w.trace (s.close B w)) = 1 ↔
        (B.psf_sndClose s.impl.file w.backend).1 ≠ B.PSF_E_NOERROR) ∧
      libraryFrees B (B.psf_sndClose s.impl.file w.backend).1
        + wrapperFrees s.impl.file (newCalls w.trace (s.close B w)) = 1) ∧
    closedFlips B ops x ≤ 1 := by
  constructor
  · intro h
    have ht := close_trace_of_open B s w h
    have hn : newCalls w.trace (s.close B w)
        = [Call.markAsInvalid, Call.psf_sndClose s.impl.file]
          ++ (if (B.psf_sndClose s.impl.file w.backend).1 ≠ B.PSF_E_NOERROR
              then [Call.free s.impl.file] else [])
          ++ [Call.delete_impl] := by
      apply newCalls_append
      rw [ht]
      simp [List.append_assoc]
    refine ⟨close_obj_of_open B s w h, hn, ?_, ?_, ?_⟩
    · rw [hn]; split_ifs <;> simp [Call.isBackend]
    · rw [hn]; split_ifs with he <;> simp_all [wrapperFrees]
    · rw [hn]; split_ifs with he <;> simp_all [wrapperFrees, libraryFrees]
  · have zero : ∀ (l : List Op) (y : SoundFile × World σ), y.1.isClosed = true →
        closedFlips B l y = 0 := by
      intro l
      induction l with
      | nil => intro y _; rfl
      | cons op l ih =>
        intro y hy
        simp only [closedFlips, hy]
        simp [ih (step B op y) (step_keeps_closed B op y hy)]
    induction ops generalizing x with
    | nil => simp [closedFlips]
    | cons op ops ih =>
      simp only [closedFlips]
      split_ifs with hflip
      · rw [zero ops (step B op x) hflip.2]
      · have := ih (step B op x)
        omega

/-- Witness of C10: closing a read handle just opened, with a library whose close reports
an error (so the wrapper frees the handle struct itself). -/
theorem close_releases_once_witness :
    (SoundFile.ctorRead (stubBackend 0 5 (-1)) "in.wav" fresh0 world0).1.isClosed = false ∧
    newCalls (SoundFile.ctorRead (stubBackend 0 5 (-1)) "in.wav" fresh0 world0).2.trace
        ((SoundFile.ctorRead (stubBackend 0 5 (-1)) "in.wav" fresh0 world0).1.close
          (stubBackend 0 5 (-1))
          (SoundFile.ctorRead (stubBackend 0 5 (-1)) "in.wav" fresh0 world0).2)
      = [Call.markAsInvalid, Call.psf_sndClose 5, Call.free 5, Call.delete_impl] :=
  ⟨rfl,
   ((close_releases_once (stubBackend 0 5 (-1))
      (SoundFile.ctorRead (stubBackend 0 5 (-1)) "in.wav" fresh0 world0).1
      (SoundFile.ctorRead (stubBackend 0 5 (-1)) "in.wav" fresh0 world0).2 [] 
      (SoundFile.ctorRead (stubBackend 0 5 (-1)) "in.wav" fresh0 world0)).1 rfl).2.1⟩

/-- C3: close twice in succession gives the same object and the same world (library state and
calls made) as close once; so does the destructor after a close; the second call makes no
call at all (no psf_sndClose, no free, no delete); and for every state an object can be in
(a constructor followed by any operations), isValid() is false after the first call and
after the second. -/
theorem close_idempotent (B : Portsf σ) (s : SoundFile) (w : World σ) :
    (s.close B w).1.close B (s.close B w).2 = s.close B w ∧
    (s.close B w).1.dtor B (s.close B w).2 = s.close B w ∧
    newCalls (s.close B w).2.trace ((s.close B w).1.close B (s.close B w).2) = [] ∧
    (ReachableFrom B (Constructed B) (s, w) →
      (s.close B w).1.isValid = false ∧
      ((s.close B w).1.close B (s.close B w).2).1.isValid = false) := by
  have again : (s.close B w).1.close B (s.close B w).2 = s.close B w :=
    close_of_closed B _ _ (close_isClosed B s w)
  refine ⟨again, again, ?_, ?_⟩
  · rw [again]; simp [newCalls]
  · intro h
    have hv : (s.close B w).1.isValid = false := by
      rw [isValid_false_iff]
      cases hcl : s.isClosed
      · rw [close_obj_of_open B s w hcl]
      · rw [close_of_closed B s w hcl]
        by_contra hne
        have := (valid_holds_handle B (s, w) h hne).2
        simp_all
    rw [again]
    exact ⟨hv, hv⟩

/-- Witness of C3: closing twice a read handle just opened. -/
theorem close_idempotent_witness :
    ReachableFrom (stubBackend 0 5 0) (Constructed (stubBackend 0 5 0))
      ((SoundFile.ctorRead (stubBackend 0 5 0) "in.wav" fresh0 world0).1,
       (SoundFile.ctorRead (stubBackend 0 5 0) "in.wav" fresh0 world0).2) ∧
    (((SoundFile.ctorRead (stubBackend 0 5 0) "in.wav" fresh0 world0).1.close (stubBackend 0 5 0)
        (SoundFile.ctorRead (stubBackend 0 5 0) "in.wav" fresh0 world0).2).1.isValid = false ∧
     ((((SoundFile.ctorRead (stubBackend 0 5 0) "in.wav" fresh0 world0).1.close
          (stubBackend 0 5 0)
          (SoundFile.ctorRead (stubBackend 0 5 0) "in.wav" fresh0 world0).2).1.close
        (stubBackend 0 5 0)
        ((SoundFile.ctorRead (stubBackend 0 5 0) "in.wav" fresh0 world0).1.close
          (stubBackend 0 5 0)
          (SoundFile.ctorRead (stubBackend 0 5 0) "in.wav" fresh0 world0).2).2).1.isValid
        = false)) :=
  ⟨ReachableFrom.init _ (Constructed.read "in.wav" fresh0 world0),
   (close_idempotent (stubBackend 0 5 0)
      (SoundFile.ctorRead (stubBackend 0 5 0) "in.wav" fresh0 world0).1
      (SoundFile.ctorRead (stubBackend 0 5 0) "in.wav" fresh0 world0).2).2.2.2
     (ReachableFrom.init _ (Constructed.read "in.wav" fresh0 world0))⟩

/-- C6, as stated, fails: after an open that failed with a null handle the object is INVALID
and holds a null handle, yet its first close calls psf_sndClose (on the null handle) and then
free. -/
theorem close_after_failed_open_calls_library :
    (SoundFile.ctorRead (stubBackend (-1) 0 (-1)) "missing.wav" fresh0 world0).1.m_handleType
      = HandleType.INVALID ∧
    (SoundFile.ctorRead (stubBackend (-1) 0 (-1)) "missing.wav" fresh0 world0).1.impl.file
      = nullptr ∧
    newCalls (SoundFile.ctorRead (stubBackend (-1) 0 (-1)) "missing.wav" fresh0 world0).2.trace
        ((SoundFile.ctorRead (stubBackend (-1) 0 (-1)) "missing.wav" fresh0 world0).1.close
          (stubBackend (-1) 0 (-1))
          (SoundFile.ctorRead (stubBackend (-1) 0 (-1)) "missing.wav" fresh0 world0).2)
      = [Call.markAsInvalid, Call.psf_sndClose nullptr, Call.free nullptr, Call.delete_impl] ∧
    ¬ (∀ c ∈ newCalls
          (SoundFile.ctorRead (stubBackend (-1) 0 (-1)) "missing.wav" fresh0 world0).2.trace
          ((SoundFile.ctorRead (stubBackend (-1) 0 (-1)) "missing.wav" fresh0 world0).1.close
            (stubBackend (-1) 0 (-1))
            (SoundFile.ctorRead (stubBackend (-1) 0 (-1)) "missing.wav" fresh0 world0).2),
        c.isBackend = false) := by
  refine ⟨rfl, rfl, rfl, ?_⟩
  intro hall
  have hmem : Call.psf_sndClose nullptr ∈ newCalls
      (SoundFile.ctorRead (stubBackend (-1) 0 (-1)) "missing.wav" fresh0 world0).2.trace
      ((SoundFile.ctorRead (stubBackend (-1) 0 (-1)) "missing.wav" fresh0 world0).1.close
        (stubBackend (-1) 0 (-1))
        (SoundFile.ctorRead (stubBackend (-1) 0 (-1)) "missing.wav" fresh0 world0).2) :=
    List.mem_cons_of_mem _ (List.mem_cons_self _ _)
  exact absurd (hall _ hmem) (by simp [Call.isBackend])

/-- C6, amended: when a constructor has called the library and the call left a null handle,
the object is INVALID and not closed, and its first close calls markAsInvalid(), then
psf_sndClose once on the null handle (its only library call), then free on the null pointer
exactly when psf_sndClose returned a code other than PSF_E_NOERROR, then delete impl; after
it isClosed is true and isValid() is false. -/
theorem close_after_failed_ctor (B : Portsf σ) (x : SoundFile × World σ)
    (hc : ConstructedByCall B x) (hnull : x.1.impl.file = nullptr) :
    x.1.m_handleType = HandleType.INVALID ∧
    x.1.isClosed = false ∧
    newCalls x.2.trace (x.1.close B x.2)
      = [Call.markAsInvalid, Call.psf_sndClose nullptr]
        ++ (if (B.psf_sndClose nullptr x.2.backend).1 ≠ B.PSF_E_NOERROR
            then [Call.free nullptr] else [])
        ++ [Call.delete_impl] ∧
    (newCalls x.2.trace (x.1.close B x.2)).filter Call.isBackend = [Call.psf_sndClose nullptr] ∧
    (x.1.close B x.2).1.isClosed = true ∧
    (x.1.close B x.2).1.isValid = false := by
  have hopen : x.1.isClosed = false := by
    cases hc with
    | read path fresh w =>
      simp only [SoundFile.ctorRead]
      split_ifs <;> simp [SoundFile.markAsInvalid]
    | write path hf sf numChannels sampleRate fresh w =>
      simp only [SoundFile.ctorWrite]
      split_ifs <;> simp [SoundFile.markAsInvalid]
    | writeFrom path readHandle fresh w hv =>
      simp only [SoundFile.ctorWriteFrom]
      split_ifs <;> simp [SoundFile.markAsInvalid]
  have hinv : x.1.m_handleType = HandleType.INVALID := by
    by_contra hne
    have hr : ReachableFrom B (Constructed B) x := by
      apply ReachableFrom.init
      cases hc with
      | read path fresh w => exact Constructed.read path fresh w
      | write path hf sf numChannels sampleRate fresh w =>
        exact Constructed.write path hf sf numChannels sampleRate fresh w
      | writeFrom path readHandle fresh w hv => exact Constructed.writeFrom path readHandle fresh w
    exact (valid_holds_handle B x hr hne).1 hnull
  have hn : newCalls x.2.trace (x.1.close B x.2)
      = [Call.markAsInvalid, Call.psf_sndClose nullptr]
        ++ (if (B.psf_sndClose nullptr x.2.backend).1 ≠ B.PSF_E_NOERROR
            then [Call.free nullptr] else [])
        ++ [Call.delete_impl] := by
    apply newCalls_append
    rw [close_trace_of_open B x.1 x.2 hopen, hnull]
    simp [List.append_assoc]
  refine ⟨hinv, hopen, hn, ?_, close_isClosed B x.1 x.2, ?_⟩
  · rw [hn]; split_ifs <;> simp [Call.isBackend]
  · rw [isValid_false_iff, close_obj_of_open B x.1 x.2 hopen]

/-- Witness of the amended C6: close after an open that failed with a null handle. -/
theorem close_after_failed_ctor_witness :
    ConstructedByCall (stubBackend (-1) 0 (-1))
      (SoundFile.ctorRead (stubBackend (-1) 0 (-1)) "missing.wav" fresh0 world0) ∧
    (SoundFile.ctorRead (stubBackend (-1) 0 (-1)) "missing.wav" fresh0 world0).1.impl.file
      = nullptr ∧
    (newCalls (SoundFile.ctorRead (stubBackend (-1) 0 (-1)) "missing.wav" fresh0 world0).2.trace
        ((SoundFile.ctorRead (stubBackend (-1) 0 (-1)) "missing.wav" fresh0 world0).1.close
          (stubBackend (-1) 0 (-1))
          (SoundFile.ctorRead (stubBackend (-1) 0 (-1)) "missing.wav" fresh0 world0).2)).filter
        Call.isBackend
      = [Call.psf_sndClose nullptr] :=
  ⟨ConstructedByCall.read "missing.wav" fresh0 world0, rfl,
   (close_after_failed_ctor (stubBackend (-1) 0 (-1))
      (SoundFile.ctorRead (stubBackend (-1) 0 (-1)) "missing.wav" fresh0 world0)
      (ConstructedByCall.read "missing.wav" fresh0 world0) rfl).2.2.2.1⟩

/-- After the mirroring constructor has been given an invalid source, the stored handle is
whatever the uninitialised storage held (no call assigned it), and the first close hands that
value to psf_sndClose. -/
theorem close_after_invalid_mirror (B : Portsf σ) (path : String) (readHandle fresh : SoundFile)
    (w : World σ) (h : readHandle.isValid = false) :
    (SoundFile.ctorWriteFrom B path readHandle fresh w).1.impl.file = fresh.impl.file ∧
    (newCalls (SoundFile.ctorWriteFrom B path readHandle fresh w).2.trace
        ((SoundFile.ctorWriteFrom B path readHandle fresh w).1.close B
          (SoundFile.ctorWriteFrom B path readHandle fresh w).2)).filter Call.isBackend
      = [Call.psf_sndClose fresh.impl.file] := by
  rw [isValid_false_iff] at h
  have hx : SoundFile.ctorWriteFrom B path readHandle fresh w
      = ({ fresh with m_handleType := HandleType.INVALID, isClosed := false },
         w.log Call.markAsInvalid) := by
    simp [SoundFile.ctorWriteFrom, SoundFile.isValid, h, SoundFile.markAsInvalid]
  rw [hx]
  refine ⟨rfl, ?_⟩
  have hn := newCalls_append (w.log Call.markAsInvalid).trace _
    (SoundFile.close B { fresh with m_handleType := HandleType.INVALID, isClosed := false }
      (w.log Call.markAsInvalid))
    (by rw [close_trace_of_open B _ _ rfl, List.append_assoc, List.append_assoc])
  rw [hn]
  split_ifs <;> simp [Call.isBackend]

/-! ## The handle type and the stored handle -/

/-- C8, as stated, fails: when psf_sndOpen returns an error code and leaves a handle behind,
the constructor ends INVALID while the stored handle is non-null and not released. -/
theorem invalid_with_handle_held :
    ReachableFrom (stubBackend (-1) 7 0) (Constructed (stubBackend (-1) 7 0))
      (SoundFile.ctorRead (stubBackend (-1) 7 0) "in.wav" fresh0 world0) ∧
    (SoundFile.ctorRead (stubBackend (-1) 7 0) "in.wav" fresh0 world0).1.impl.file = 7 ∧
    (SoundFile.ctorRead (stubBackend (-1) 7 0) "in.wav" fresh0 world0).1.isClosed = false ∧
    ¬ ((SoundFile.ctorRead (stubBackend (-1) 7 0) "in.wav" fresh0 world0).1.m_handleType
        = HandleType.INVALID ↔
      (SoundFile.ctorRead (stubBackend (-1) 7 0) "in.wav" fresh0 world0).1.holdsNoHandle) := by
  refine ⟨ReachableFrom.init _ (Constructed.read "in.wav" fresh0 world0), rfl, rfl, ?_⟩
  intro hiff
  have hno := hiff.mp rfl
  rcases hno with h | h
  · exact absurd h (by decide)
  · exact absurd h (by decide)

/-- C8, amended: in every state reached by a constructor followed by any public operations,
a handle type other than INVALID implies that the stored handle is non-null and not yet
released.  When moreover the library leaves a null handle whenever an open or create returns
an error code, then in every state reached from a constructor that called the library, the
handle type is INVALID if and only if the stored handle is null or already released. -/
theorem invalid_iff_no_handle (B : Portsf σ) (x : SoundFile × World σ) :
    (ReachableFrom B (Constructed B) x →
      x.1.m_handleType ≠ HandleType.INVALID → ¬ x.1.holdsNoHandle) ∧
    (FailsWithNull B → ReachableFrom B (ConstructedByCall B) x →
      (x.1.m_handleType = HandleType.INVALID ↔ x.1.holdsNoHandle)) := by
  constructor
  · intro hr hne hno
    have hh := valid_holds_handle B x hr hne
    rcases hno with h | h
    · exact hh.1 h
    · rw [hh.2] at h; exact Bool.noConfusion h
  · intro hB hr
    induction hr with
    | init x hx =>
      cases hx with
      | read path fresh w =>
        simp only [SoundFile.ctorRead]
        split_ifs with hf
        · have hnull := hf.elim id (hB.1 path _ 0 _ _)
          simp [SoundFile.markAsInvalid, SoundFile.holdsNoHandle, hnull]
        · simp only [not_or] at hf
          simp [SoundFile.holdsNoHandle, hf.1]
      | write path hf sf numChannels sampleRate fresh w =>
        simp only [SoundFile.ctorWrite]
        split_ifs with hf
        · have hnull := hf.elim id (hB.2 path _ 0 1 _ _ _)
          simp [SoundFile.markAsInvalid, SoundFile.holdsNoHandle, hnull]
        · simp only [not_or] at hf
          simp [SoundFile.holdsNoHandle, hf.1]
      | writeFrom path readHandle fresh w hv =>
        simp only [SoundFile.ctorWriteFrom, hv, if_true]
        split_ifs with hf
        · have hnull := hf.elim id (hB.2 path _ 0 1 _ _ _)
          simp [SoundFile.markAsInvalid, SoundFile.holdsNoHandle, hnull]
        · simp only [not_or] at hf
          simp [SoundFile.holdsNoHandle, hf.1]
    | step op x _ ih =>
      by_cases hc : op = Op.close
      · subst hc
        show (x.1.close B x.2).1.m_handleType = HandleType.INVALID ↔
          (x.1.close B x.2).1.holdsNoHandle
        cases hcl : x.1.isClosed
        · rw [close_obj_of_open B x.1 x.2 hcl]
          simp [SoundFile.holdsNoHandle]
        · rw [close_of_closed B x.1 x.2 hcl]
          exact ih
      · rw [step_obj_of_ne_close B op x hc]; exact ih
    | world x w _ ih => exact ih

/-- Witness of the amended C8: a library that fails every open with code -1 and a null
handle; the object is opened, read from and closed. -/
theorem invalid_iff_no_handle_witness :
    FailsWithNull (stubBackend (-1) 0 0) ∧
    ReachableFrom (stubBackend (-1) 0 0) (ConstructedByCall (stubBackend (-1) 0 0))
      (step (stubBackend (-1) 0 0) Op.close
        (step (stubBackend (-1) 0 0) (Op.read_float 4096 64)
          (SoundFile.ctorRead (stubBackend (-1) 0 0) "missing.wav" fresh0 world0))) ∧
    ((step (stubBackend (-1) 0 0) Op.close
        (step (stubBackend (-1) 0 0) (Op.read_float 4096 64)
          (SoundFile.ctorRead (stubBackend (-1) 0 0) "missing.wav" fresh0
            world0))).1.m_handleType = HandleType.INVALID ↔
      (step (stubBackend (-1) 0 0) Op.close
        (step (stubBackend (-1) 0 0) (Op.read_float 4096 64)
          (SoundFile.ctorRead (stubBackend (-1) 0 0) "missing.wav" fresh0
            world0))).1.holdsNoHandle) :=
  ⟨⟨fun _ _ _ _ _ _ => rfl, fun _ _ _ _ _ _ _ _ => rfl⟩,
   ReachableFrom.step _ _ (ReachableFrom.step _ _
     (ReachableFrom.init _ (ConstructedByCall.read "missing.wav" fresh0 world0))),
   (invalid_iff_no_handle (stubBackend (-1) 0 0) _).2
     ⟨fun _ _ _ _ _ _ => rfl, fun _ _ _ _ _ _ _ _ => rfl⟩
     (ReachableFrom.step _ _ (ReachableFrom.step _ _
       (ReachableFrom.init _ (ConstructedByCall.read "missing.wav" fresh0 world0))))⟩

end psf
